import Mathlib

/-!
Shallow embedding of the ACAN2517 CAN-driver core (src/src/ACAN2517.cpp):
the frame codec with its extended-identifier bit reorder, the TX and RX
mailbox paths, the interrupt dispatch core, and the bring-up validation,
together with theorems settling the specification claims.

Machine integers are embedded as `Nat` with explicit masking where the
C code truncates.  Register traffic is recorded as an explicit list of
SPI operations so that ordering and register-value claims can be stated.
-/

namespace Acan2517

/-- CAN frame, mirroring the fields of the external `CANMessage` value type
used by the driver: 32-bit identifier, extended and remote flags, the
routing/filter index `idx`, the length `len`, and the two 32-bit payload
words `data32[0]` and `data32[1]`. -/
structure CANMessage where
  id : Nat
  ext : Bool
  rtr : Bool
  idx : Nat
  len : Nat
  data0 : Nat
  data1 : Nat
deriving Repr, DecidableEq

/-- Modelled from the spec: the external frame value type is
default-constructed with all fields zero (id 0, standard, data frame,
length 0, zero payload).  The `CANMessage` class itself is not part of
the repository sources. -/
def defaultCANMessage : CANMessage :=
  { id := 0, ext := false, rtr := false, idx := 0, len := 0, data0 := 0, data1 := 0 }

/-- `C1FIFOCON_REGISTER` (ACAN2517.cpp lines 72-74). -/
def C1FIFOCON_REGISTER (inFIFOIndex : Nat) : Nat := 0x05C + 12 * (inFIFOIndex - 1)

/-- `C1FIFOSTA_REGISTER` (ACAN2517.cpp lines 78-80). -/
def C1FIFOSTA_REGISTER (inFIFOIndex : Nat) : Nat := 0x060 + 12 * (inFIFOIndex - 1)

/-- `C1FIFOUA_REGISTER` (ACAN2517.cpp lines 84-86). -/
def C1FIFOUA_REGISTER (inFIFOIndex : Nat) : Nat := 0x064 + 12 * (inFIFOIndex - 1)

/-- `C1TXQCON_REGISTER` (ACAN2517.cpp line 58). -/
def C1TXQCON_REGISTER : Nat := 0x050

/-- `C1TXQSTA_REGISTER` (ACAN2517.cpp line 59). -/
def C1TXQSTA_REGISTER : Nat := 0x054

/-- `C1TXQUA_REGISTER` (ACAN2517.cpp line 60). -/
def C1TXQUA_REGISTER : Nat := 0x058

/-- `C1INT_REGISTER` (ACAN2517.cpp line 66). -/
def C1INT_REGISTER : Nat := 0x01C

/-- `receiveFIFOIndex` (ACAN2517.cpp line 124). -/
def receiveFIFOIndex : Nat := 1

/-- Extended-identifier reorder applied when transmitting
(ACAN2517.cpp lines 469-472 and 532-535):
`idf = ((id >> 18) & 0x7FF) | ((id & 0x3FFFF) << 11)`. -/
def txIdReorder (id : Nat) : Nat :=
  ((id >>> 18) &&& 0x7FF) ||| ((id &&& 0x3FFFF) <<< 11)

/-- Extended-identifier reorder applied when receiving
(ACAN2517.cpp lines 790-793):
`id = ((tempID >> 11) & 0x3FFFF) | ((tempID & 0x7FF) << 18)`. -/
def rxIdReorder (tempID : Nat) : Nat :=
  ((tempID >>> 11) &&& 0x3FFFF) ||| ((tempID &&& 0x7FF) <<< 18)

/-- Identifier word placed in the message object by the encoder
(ACAN2517.cpp lines 469-472). -/
def txIdf (m : CANMessage) : Nat :=
  if m.ext then txIdReorder m.id else m.id

/-- Control word (DLC, RTR, IDE bits) placed in the message object by the
encoder (ACAN2517.cpp lines 475-481). -/
def txCtrl (m : CANMessage) : Nat :=
  let d : Nat := if m.len > 8 then 8 else m.len
  let d : Nat := if m.rtr then d ||| (1 <<< 5) else d
  if m.ext then d ||| (1 <<< 4) else d

/-- Little-endian byte serialization of a 32-bit word, as in the four
`buff[k] = (uint8)(w >> 8k)` stores of the optimized SPI encoder
(ACAN2517.cpp lines 496-515); the `uint8` truncation is the `&&& 0xFF`. -/
def bytesOfWord (w : Nat) : List Nat :=
  [w &&& 0xFF, (w >>> 8) &&& 0xFF, (w >>> 16) &&& 0xFF, (w >>> 24) &&& 0xFF]

/-- The 16 message-object bytes written by `appendInControllerTxFIFO`
(and `sendViaTXQ`): identifier word, control word, two payload words,
each serialized little-endian (ACAN2517.cpp lines 496-515). -/
def encodeMsgObj (m : CANMessage) : List Nat :=
  bytesOfWord (txIdf m) ++ bytesOfWord (txCtrl m) ++
    bytesOfWord m.data0 ++ bytesOfWord m.data1

/-- Little-endian word reassembly from four bytes, as in the
`w |= buff[k] << 8k` accumulations of the optimized SPI decoder starting
from a zeroed field (ACAN2517.cpp lines 755-779). -/
def accumWord (b0 b1 b2 b3 : Nat) : Nat :=
  (((0 ||| (b0 <<< 0)) ||| (b1 <<< 8)) ||| (b2 <<< 16)) ||| (b3 <<< 24)

/-- Decoder of the 16 message-object bytes, as done by `receiveInterrupt`
(ACAN2517.cpp lines 750-793): reassemble the identifier word, the control
word and the two payload words, extract RTR, IDE, DLC and the
filter-match index, and undo the extended-identifier reorder.
A buffer of fewer than 16 bytes decodes as all-zero (never reached: the
interrupt handler always reads 16 data bytes). -/
def decodeMsgObj (bs : List Nat) : CANMessage :=
  match bs with
  | b0 :: b1 :: b2 :: b3 :: b4 :: b5 :: b6 :: b7 ::
    b8 :: b9 :: b10 :: b11 :: b12 :: b13 :: b14 :: b15 :: _ =>
      let idf := accumWord b0 b1 b2 b3
      let data := accumWord b4 b5 b6 b7
      let d0 := accumWord b8 b9 b10 b11
      let d1 := accumWord b12 b13 b14 b15
      let rtr := (data &&& (1 <<< 5)) != 0
      let ext := (data &&& (1 <<< 4)) != 0
      let len := data &&& 0x0F
      let idx := (data >>> 11) &&& 0x1F
      let id := if ext then rxIdReorder idf else idf
      { id := id, ext := ext, rtr := rtr, idx := idx, len := len, data0 := d0, data1 := d1 }
  | _ => defaultCANMessage

/-! ### SPI register traffic and driver state

Controller accesses performed by the driver are recorded as a list of
SPI operations.  Read operations carry the value the controller answered
(the environment's response), so that the driver's control flow can
depend on it. -/

/-- One SPI register access of the driver. -/
inductive SpiOp where
  | writeByte (addr val : Nat)
  | readByte (addr val : Nat)
  | readWord (addr val : Nat)
  | writeBurst (addr : Nat) (bytes : List Nat)
  | readBurst (addr : Nat) (bytes : List Nat)
deriving Repr, DecidableEq

/-- Driver instance state after bring-up: the TX-full flag, the TXQ-use
flag, and the two host-side FIFOs with their configured sizes
(front of the list is the oldest element). -/
structure DriverState where
  mControllerTxFIFOFull : Bool
  mUsesTXQ : Bool
  txBuf : List CANMessage
  txBufSize : Nat
  rxBuf : List CANMessage
  rxBufSize : Nat
deriving Repr, DecidableEq

/-- Modelled from the spec: the external host-side ring buffer's
`append` (§4.3) returns false and leaves the buffer unchanged when full,
else enqueues at the back and returns true.  The `ACANBuffer` class is
not part of the repository sources. -/
def bufAppend (buf : List CANMessage) (size : Nat) (m : CANMessage) :
    Bool × List CANMessage :=
  if buf.length < size then (true, buf ++ [m]) else (false, buf)

/-- Modelled from the spec: the external host-side ring buffer's
`remove` (§4.3) returns false and does not touch the out-parameter when
empty, else dequeues the oldest element into it and returns true.
The caller passes the out-parameter's prior value `m0`. -/
def bufRemove (buf : List CANMessage) (m0 : CANMessage) :
    Bool × CANMessage × List CANMessage :=
  match buf with
  | [] => (false, m0, [])
  | m :: rest => (true, m, rest)

/-- `ACAN2517::appendInControllerTxFIFO` (ACAN2517.cpp lines 466-522):
read the TX FIFO head address from `C1FIFOUA(2)`, write the 18-byte
burst (2 command bytes plus the 16 encoded message-object bytes) at
`0x400 + head` (`uint16` truncated), then set UINC and TXREQ in
`C1FIFOCON(2)+1`.  `txUA` is the value the controller answers on the
head-address read. -/
def appendInControllerTxFIFO (m : CANMessage) (txUA : Nat) : List SpiOp :=
  [SpiOp.readWord (C1FIFOUA_REGISTER 2) txUA,
   SpiOp.writeBurst ((0x400 + txUA) &&& 0xFFFF) (encodeMsgObj m),
   SpiOp.writeByte (C1FIFOCON_REGISTER 2 + 1) ((1 <<< 0) ||| (1 <<< 1))]

/-- `ACAN2517::enterInTransmitBuffer` (ACAN2517.cpp lines 445-462):
if the controller TX FIFO is marked full, append to the host TX FIFO and
return its result; otherwise emit into the controller TX FIFO, read
`C1FIFOSTA(2)` (`status2` is the answered byte), and when its bit 0 is
clear write `0x81` to `C1FIFOCON(2)` and set the full flag. -/
def enterInTransmitBuffer (s : DriverState) (m : CANMessage)
    (txUA status2 : Nat) : Bool × DriverState × List SpiOp :=
  if s.mControllerTxFIFOFull then
    let r := bufAppend s.txBuf s.txBufSize m
    (r.1, { s with txBuf := r.2 }, [])
  else
    let ops := appendInControllerTxFIFO m txUA ++
      [SpiOp.readByte (C1FIFOSTA_REGISTER 2) status2]
    if status2 &&& 1 = 0 then
      (true, { s with mControllerTxFIFOFull := true },
        ops ++ [SpiOp.writeByte (C1FIFOCON_REGISTER 2) ((1 <<< 7) ||| 1)])
    else
      (true, s, ops)

/-- `ACAN2517::sendViaTXQ` (ACAN2517.cpp lines 526-588): when the TXQ is
in use, read `C1TXQSTA` (`txqSta` is the answered byte); when its bit 0
says "not full", read the TXQ head from `C1TXQUA` (`txqUA`), write the
encoded frame burst at `0x400 + head`, set UINC and TXREQ in
`C1TXQCON+1` and return true; otherwise return false.  When `mUsesTXQ`
is false the status read is short-circuited away. -/
def sendViaTXQ (s : DriverState) (m : CANMessage) (txqSta txqUA : Nat) :
    Bool × List SpiOp :=
  if s.mUsesTXQ then
    if txqSta &&& 1 ≠ 0 then
      (true,
       [SpiOp.readByte C1TXQSTA_REGISTER txqSta,
        SpiOp.readWord C1TXQUA_REGISTER txqUA,
        SpiOp.writeBurst ((0x400 + txqUA) &&& 0xFFFF) (encodeMsgObj m),
        SpiOp.writeByte (C1TXQCON_REGISTER + 1) ((1 <<< 0) ||| (1 <<< 1))])
    else
      (false, [SpiOp.readByte C1TXQSTA_REGISTER txqSta])
  else
    (false, [])

/-- `ACAN2517::tryToSend` (ACAN2517.cpp lines 424-441): route by the
frame's routing index; 0 enters the normal TX FIFO path, 255 goes
through the TXQ, anything else does nothing and reports false. -/
def tryToSend (s : DriverState) (m : CANMessage) (txUA status2 txqSta txqUA : Nat) :
    Bool × DriverState × List SpiOp :=
  if m.idx = 0 then
    enterInTransmitBuffer s m txUA status2
  else if m.idx = 255 then
    let r := sendViaTXQ s m txqSta txqUA
    (r.1, s, r.2)
  else
    (false, s, [])

/-- `ACAN2517::transmitInterrupt` (ACAN2517.cpp lines 725-735): pop one
frame from the host TX FIFO into a default-constructed local (the
boolean result of `remove` is ignored), always emit it into the
controller TX FIFO, and when the host TX FIFO is now empty write `0x80`
to `C1FIFOCON(2)` and clear the full flag. -/
def transmitInterrupt (s : DriverState) (txUA : Nat) :
    DriverState × List SpiOp :=
  let r := bufRemove s.txBuf defaultCANMessage
  let s1 : DriverState := { s with txBuf := r.2.2 }
  let ops := appendInControllerTxFIFO r.2.1 txUA
  if s1.txBuf.length = 0 then
    ({ s1 with mControllerTxFIFOFull := false },
      ops ++ [SpiOp.writeByte (C1FIFOCON_REGISTER 2) (1 <<< 7)])
  else
    (s1, ops)

/-- `ACAN2517::receiveInterrupt` (ACAN2517.cpp lines 739-803): read
`C1FIFOSTA(1)` (side effect only), read the RX head address from
`C1FIFOUA(1)`, read the 16 message-object bytes at `0x400 + head`,
decode them, append to the host RX FIFO (the boolean result is
ignored), set UINC in `C1FIFOCON(1)+1`, and when the host RX FIFO is now
full write `0x00` to `C1FIFOCON(1)`.  `rxSta`, `rxUA` and `bytes` are
the controller's answers. -/
def receiveInterrupt (s : DriverState) (rxSta rxUA : Nat) (bytes : List Nat) :
    DriverState × List SpiOp :=
  let m := decodeMsgObj bytes
  let r := bufAppend s.rxBuf s.rxBufSize m
  let s1 : DriverState := { s with rxBuf := r.2 }
  let ops :=
    [SpiOp.readByte (C1FIFOSTA_REGISTER receiveFIFOIndex) rxSta,
     SpiOp.readWord (C1FIFOUA_REGISTER receiveFIFOIndex) rxUA,
     SpiOp.readBurst ((0x400 + rxUA) &&& 0xFFFF) bytes,
     SpiOp.writeByte (C1FIFOCON_REGISTER receiveFIFOIndex + 1) (1 <<< 0)]
  if s1.rxBuf.length = s1.rxBufSize then
    (s1, ops ++ [SpiOp.writeByte (C1FIFOCON_REGISTER receiveFIFOIndex) 0])
  else
    (s1, ops)

/-- `ACAN2517::receive` (ACAN2517.cpp lines 611-628): dequeue from the
host RX FIFO; on success write `0x01` to `C1FIFOCON(1)` to re-enable the
"FIFO not empty" interrupt; on failure touch no register. -/
def receive (s : DriverState) :
    (Bool × Option CANMessage) × DriverState × List SpiOp :=
  match s.rxBuf with
  | [] => ((false, none), s, [])
  | m :: rest =>
      ((true, some m), { s with rxBuf := rest },
        [SpiOp.writeByte (C1FIFOCON_REGISTER receiveFIFOIndex) 1])

/-- `ACAN2517::isr_core` (ACAN2517.cpp lines 698-721): read the 32-bit
`C1INT` register (`intReg` is the answered word), run the RX handler
when bit 1 is set, the TX handler when bit 0 is set, then acknowledge
TBCIF (bit 2), MODIF (bit 3) and SERRIF (bit 12) by byte writes; return
whether an RX or TX handler ran. -/
def isr_core (s : DriverState) (intReg rxSta rxUA : Nat)
    (rxBytes : List Nat) (txUA : Nat) :
    Bool × DriverState × List SpiOp :=
  let handled := false
  let ops : List SpiOp := [SpiOp.readWord C1INT_REGISTER intReg]
  let step1 : Bool × DriverState × List SpiOp :=
    if intReg &&& (1 <<< 1) ≠ 0 then
      let r := receiveInterrupt s rxSta rxUA rxBytes
      (true, r.1, ops ++ r.2)
    else (handled, s, ops)
  let step2 : Bool × DriverState × List SpiOp :=
    if intReg &&& (1 <<< 0) ≠ 0 then
      let r := transmitInterrupt step1.2.1 txUA
      (true, r.1, step1.2.2 ++ r.2)
    else step1
  let ops2 :=
    if intReg &&& (1 <<< 2) ≠ 0 then
      step2.2.2 ++ [SpiOp.writeByte C1INT_REGISTER (1 <<< 2)]
    else step2.2.2
  let ops3 :=
    if intReg &&& (1 <<< 3) ≠ 0 then
      ops2 ++ [SpiOp.writeByte C1INT_REGISTER (1 <<< 3)]
    else ops2
  let ops4 :=
    if intReg &&& (1 <<< 12) ≠ 0 then
      ops3 ++ [SpiOp.writeByte (C1INT_REGISTER + 1) (1 <<< 4)]
    else ops3
  (step2.1, step2.2.1, ops4)

/-- `ACAN2517::dispatchReceivedMessage` (ACAN2517.cpp lines 632-649):
call `receive`; when a frame arrived, take its filter-match index and,
when the callback array is non-null, subscript the array with that index
without comparing it to the array's length.  The callback array is
modelled as an optional list of callback tokens; the result's middle
component is the index the code subscripts with (`none` when no frame
arrived or the array is null) and the last component is a bounds-checked
lookup at that index, `none` exactly when the C array access would fall
outside the array. -/
def dispatchReceivedMessage (s : DriverState)
    (cbArray : Option (List (Option Nat))) :
    (Bool × Option Nat × Option (Option Nat)) × DriverState × List SpiOp :=
  let r := receive s
  match r.1.2 with
  | none => ((false, none, none), r.2)
  | some msg =>
      let filterIndex := msg.idx
      match cbArray with
      | none => ((true, none, none), r.2)
      | some arr => ((true, some filterIndex, arr.get? filterIndex), r.2)

/-- A 16-byte message object whose control word carries filter-match
index `v` (bits 11..15 of the little-endian word at bytes 4..7). -/
def idxBytes (v : Nat) : List Nat :=
  [0, 0, 0, 0, (v <<< 11) &&& 0xFF, ((v <<< 11) >>> 8) &&& 0xFF, 0, 0,
   0, 0, 0, 0, 0, 0, 0, 0]

/-! ### Bring-up validation (ACAN2517.cpp lines 161-216) -/

/-- Modelled from the spec: the named bring-up error kinds (§7) are
distinct bits of the 32-bit error mask.  The constants live in the
repository's header `ACAN2517.h`, which is not among the sources, so
each is assigned one bit, in the order the specification lists them. -/
def kTooFarFromDesiredBitRate : Nat := 1 <<< 0

/-- Modelled from the spec: see `kTooFarFromDesiredBitRate`. -/
def kInconsistentBitRateSettings : Nat := 1 <<< 1

/-- Modelled from the spec: see `kTooFarFromDesiredBitRate`. -/
def kINTPinIsNotAnInterrupt : Nat := 1 <<< 2

/-- Modelled from the spec: see `kTooFarFromDesiredBitRate`. -/
def kISRIsNull : Nat := 1 <<< 3

/-- Modelled from the spec: see `kTooFarFromDesiredBitRate`. -/
def kISRNotNullAndNoIntPin : Nat := 1 <<< 4

/-- Modelled from the spec: see `kTooFarFromDesiredBitRate`. -/
def kControllerTXQSizeGreaterThan32 : Nat := 1 <<< 5

/-- Modelled from the spec: see `kTooFarFromDesiredBitRate`. -/
def kControllerTXQPriorityGreaterThan31 : Nat := 1 <<< 6

/-- Modelled from the spec: see `kTooFarFromDesiredBitRate`. -/
def kControllerReceiveFIFOSizeIsZero : Nat := 1 <<< 7

/-- Modelled from the spec: see `kTooFarFromDesiredBitRate`. -/
def kControllerReceiveFIFOSizeGreaterThan32 : Nat := 1 <<< 8

/-- Modelled from the spec: see `kTooFarFromDesiredBitRate`. -/
def kControllerTransmitFIFOSizeIsZero : Nat := 1 <<< 9

/-- Modelled from the spec: see `kTooFarFromDesiredBitRate`. -/
def kControllerTransmitFIFOSizeGreaterThan32 : Nat := 1 <<< 10

/-- Modelled from the spec: see `kTooFarFromDesiredBitRate`. -/
def kControllerTransmitFIFOPriorityGreaterThan31 : Nat := 1 <<< 11

/-- Modelled from the spec: see `kTooFarFromDesiredBitRate`. -/
def kControllerRamUsageGreaterThan2048 : Nat := 1 <<< 12

/-- Modelled from the spec: see `kTooFarFromDesiredBitRate`. -/
def kMoreThan32Filters : Nat := 1 <<< 13

/-- Modelled from the spec: see `kTooFarFromDesiredBitRate`. -/
def kFilterDefinitionError : Nat := 1 <<< 14

/-- The inputs inspected by the validation section of `ACAN2517::begin`:
settings fields, the wired INT pin, the answers of the external platform
checks, and the filter list summary. -/
structure BeginInputs where
  mBitRateClosedToDesiredRate : Bool
  bitSettingConsistency : Nat
  mINT : Nat
  intPinIsNotAnInterrupt : Bool
  isrIsNull : Bool
  mControllerTXQSize : Nat
  mControllerTXQBufferPriority : Nat
  mControllerReceiveFIFOSize : Nat
  mControllerTransmitFIFOSize : Nat
  mControllerTransmitFIFOPriority : Nat
  ramUsage : Nat
  filterCount : Nat
  filterStatusOk : Bool
deriving Repr, DecidableEq

/-- The validation section of `ACAN2517::begin` (ACAN2517.cpp lines
161-216), computing the error mask before any controller access.  Every
check or-accumulates its bit except the INT-pin capability check at line
172, which plainly assigns (`errorCode = kINTPinIsNotAnInterrupt`),
discarding any bits accumulated before it; the embedding reproduces that
assignment. -/
def beginValidationErrorCode (i : BeginInputs) : Nat :=
  let e : Nat := 0
  let e := if !i.mBitRateClosedToDesiredRate then
    e ||| kTooFarFromDesiredBitRate else e
  let e := if i.bitSettingConsistency ≠ 0 then
    e ||| kInconsistentBitRateSettings else e
  let e := if i.mINT ≠ 255 ∧ i.intPinIsNotAnInterrupt then
    kINTPinIsNotAnInterrupt else e
  let e := if i.mINT ≠ 255 ∧ i.isrIsNull then e ||| kISRIsNull else e
  let e := if i.mINT = 255 ∧ ¬ i.isrIsNull then
    e ||| kISRNotNullAndNoIntPin else e
  let e := if i.mControllerTXQSize > 32 then
    e ||| kControllerTXQSizeGreaterThan32 else e
  let e := if i.mControllerTXQBufferPriority > 31 then
    e ||| kControllerTXQPriorityGreaterThan31 else e
  let e := if i.mControllerReceiveFIFOSize = 0 then
    e ||| kControllerReceiveFIFOSizeIsZero
    else if i.mControllerReceiveFIFOSize > 32 then
      e ||| kControllerReceiveFIFOSizeGreaterThan32 else e
  let e := if i.mControllerTransmitFIFOSize = 0 then
    e ||| kControllerTransmitFIFOSizeIsZero
    else if i.mControllerTransmitFIFOSize > 32 then
      e ||| kControllerTransmitFIFOSizeGreaterThan32 else e
  let e := if i.mControllerTransmitFIFOPriority > 31 then
    e ||| kControllerTransmitFIFOPriorityGreaterThan31 else e
  let e := if i.ramUsage > 2048 then
    e ||| kControllerRamUsageGreaterThan2048 else e
  let e := if i.filterCount > 32 then e ||| kMoreThan32Filters else e
  if ¬ i.filterStatusOk then e ||| kFilterDefinitionError else e

/-! ### Reachable driver states -/

/-- One externally triggered driver operation after bring-up, carrying
the controller's answers to the reads the operation performs. -/
inductive DriverEvent where
  | sendEv (m : CANMessage) (txUA status2 txqSta txqUA : Nat)
  | isrEv (intReg rxSta rxUA : Nat) (rxBytes : List Nat) (txUA : Nat)
  | recvEv
deriving Repr

/-- State transition and SPI trace of one driver operation:
`tryToSend`, one `isr_core` pass (covering `isr` and `poll`), or
`receive` (covering `receive`, `available` and
`dispatchReceivedMessage`). -/
def stepEvent (s : DriverState) : DriverEvent → DriverState × List SpiOp
  | DriverEvent.sendEv m txUA status2 txqSta txqUA =>
      let r := tryToSend s m txUA status2 txqSta txqUA
      (r.2.1, r.2.2)
  | DriverEvent.isrEv intReg rxSta rxUA rxBytes txUA =>
      let r := isr_core s intReg rxSta rxUA rxBytes txUA
      (r.2.1, r.2.2)
  | DriverEvent.recvEv =>
      let r := receive s
      (r.2.1, r.2.2)

/-- Fold step for tracking the most recent value written to
`C1FIFOCON(2)`. -/
def updCon2 (c : Nat) (op : SpiOp) : Nat :=
  match op with
  | SpiOp.writeByte a v => if a = C1FIFOCON_REGISTER 2 then v else c
  | _ => c

/-- Value of the most recent write to `C1FIFOCON(2)` after a list of SPI
operations, starting from `c`. -/
def lastCon2 (c : Nat) (ops : List SpiOp) : Nat :=
  ops.foldl updCon2 c

/-- Driver states reachable after a successful bring-up, paired with the
most recent value written to `C1FIFOCON(2)`.  `begin` leaves the flag
false (constructor, ACAN2517.cpp line 136) and its last write to
`C1FIFOCON(2)` is `0x80` (TXEN, line 353-354); afterwards the
application and the interrupt handlers drive the state. -/
inductive Reachable : DriverState → Nat → Prop
  | init (txSize rxSize : Nat) (utxq : Bool) :
      Reachable
        { mControllerTxFIFOFull := false, mUsesTXQ := utxq,
          txBuf := [], txBufSize := txSize, rxBuf := [], rxBufSize := rxSize }
        0x80
  | step (s : DriverState) (c : Nat) (e : DriverEvent) :
      Reachable s c →
      Reachable (stepEvent s e).1 (lastCon2 c (stepEvent s e).2)

/-- The round-trip property of the message-object codec for one frame:
decoding the encoded 16 bytes recovers id, ext, rtr, len and both payload
words (the filter-match index is not constrained). -/
def RoundTripOK (m : CANMessage) : Prop :=
  (decodeMsgObj (encodeMsgObj m)).id = m.id ∧
  (decodeMsgObj (encodeMsgObj m)).ext = m.ext ∧
  (decodeMsgObj (encodeMsgObj m)).rtr = m.rtr ∧
  (decodeMsgObj (encodeMsgObj m)).len = m.len ∧
  (decodeMsgObj (encodeMsgObj m)).data0 = m.data0 ∧
  (decodeMsgObj (encodeMsgObj m)).data1 = m.data1

/-! ### Arithmetic and codec lemmas -/

/-- Disjoint bitwise or is addition: when `a` fits below bit `n`,
or-ing in a value shifted up by `n` is plain addition. -/
theorem lor_shiftLeft_eq_add (a b n : Nat) (h : a < 2 ^ n) :
    a ||| (b <<< n) = a + b * 2 ^ n := by
  apply Nat.eq_of_testBit_eq
  intro i
  rw [Nat.testBit_or, Nat.testBit_shiftLeft]
  rcases Nat.lt_or_ge i n with hi | hi
  · have hd : decide (n ≤ i) = false := decide_eq_false (Nat.not_le.mpr hi)
    rw [hd, Bool.false_and, Bool.or_false]
    rw [Nat.testBit_to_div_mod, Nat.testBit_to_div_mod]
    have hdvd : (a + b * 2 ^ n) / 2 ^ i = a / 2 ^ i + b * 2 ^ (n - i) := by
      have hsplit : b * 2 ^ n = b * 2 ^ (n - i) * 2 ^ i := by
        rw [Nat.mul_assoc, ← pow_add]
        congr 2
        omega
      rw [hsplit, Nat.add_mul_div_right _ _ (by positivity : (0:Nat) < 2 ^ i)]
    rw [hdvd]
    have heven : b * 2 ^ (n - i) = 2 * (b * 2 ^ (n - i - 1)) := by
      have h2 : (2:Nat) ^ (n - i) = 2 * 2 ^ (n - i - 1) := by
        rw [← pow_succ']
        congr 1
        omega
      rw [h2]
      ring
    rw [heven]
    have hm : (a / 2 ^ i + 2 * (b * 2 ^ (n - i - 1))) % 2 = a / 2 ^ i % 2 := by
      omega
    rw [hm]
  · have hd : decide (n ≤ i) = true := decide_eq_true hi
    rw [hd, Bool.true_and]
    have ha : Nat.testBit a i = false :=
      Nat.testBit_lt_two_pow
        (Nat.lt_of_lt_of_le h (Nat.pow_le_pow_right (by omega) hi))
    rw [ha, Bool.false_or]
    rw [Nat.testBit_to_div_mod, Nat.testBit_to_div_mod]
    have hdiv : (a + b * 2 ^ n) / 2 ^ i = b / 2 ^ (i - n) := by
      have hsplit : (2:Nat) ^ i = 2 ^ n * 2 ^ (i - n) := by
        rw [← pow_add]
        congr 1
        omega
      rw [hsplit, ← Nat.div_div_eq_div_mul,
        Nat.add_mul_div_right _ _ (by positivity : (0:Nat) < 2 ^ n),
        Nat.div_eq_of_lt h, Nat.zero_add]
    rw [hdiv]

/-- Reassembling the four little-endian bytes of a 32-bit word recovers
the word. -/
theorem accumWord_bytesOfWord (w : Nat) (h : w < 2 ^ 32) :
    accumWord (w &&& 0xFF) ((w >>> 8) &&& 0xFF) ((w >>> 16) &&& 0xFF)
      ((w >>> 24) &&& 0xFF) = w := by
  have hFF : (0xFF : Nat) = 2 ^ 8 - 1 := by norm_num
  unfold accumWord
  rw [hFF]
  simp only [Nat.and_pow_two_sub_one_eq_mod, Nat.shiftRight_eq_div_pow,
    Nat.shiftLeft_zero, Nat.zero_or]
  rw [lor_shiftLeft_eq_add _ _ _ (by omega : w % 2 ^ 8 < 2 ^ 8)]
  rw [lor_shiftLeft_eq_add _ _ _ (by omega :
    w % 2 ^ 8 + w / 2 ^ 8 % 2 ^ 8 * 2 ^ 8 < 2 ^ 16)]
  rw [lor_shiftLeft_eq_add _ _ _ (by omega :
    w % 2 ^ 8 + w / 2 ^ 8 % 2 ^ 8 * 2 ^ 8 + w / 2 ^ 16 % 2 ^ 8 * 2 ^ 16 < 2 ^ 24)]
  omega

/-- Arithmetic form of the transmit-side reorder. -/
theorem txIdReorder_eq (id : Nat) :
    txIdReorder id = (id / 262144) % 2048 + (id % 262144) * 2048 := by
  have h7FF : (0x7FF : Nat) = 2 ^ 11 - 1 := by norm_num
  have h3FFFF : (0x3FFFF : Nat) = 2 ^ 18 - 1 := by norm_num
  unfold txIdReorder
  rw [h7FF, h3FFFF]
  simp only [Nat.and_pow_two_sub_one_eq_mod, Nat.shiftRight_eq_div_pow]
  rw [lor_shiftLeft_eq_add _ _ _ (by omega : id / 2 ^ 18 % 2 ^ 11 < 2 ^ 11)]
  norm_num

/-- Arithmetic form of the receive-side reorder. -/
theorem rxIdReorder_eq (tempID : Nat) :
    rxIdReorder tempID = (tempID / 2048) % 262144 + (tempID % 2048) * 262144 := by
  have h7FF : (0x7FF : Nat) = 2 ^ 11 - 1 := by norm_num
  have h3FFFF : (0x3FFFF : Nat) = 2 ^ 18 - 1 := by norm_num
  unfold rxIdReorder
  rw [h7FF, h3FFFF]
  simp only [Nat.and_pow_two_sub_one_eq_mod, Nat.shiftRight_eq_div_pow]
  rw [lor_shiftLeft_eq_add _ _ _ (by omega : tempID / 2 ^ 11 % 2 ^ 18 < 2 ^ 18)]
  norm_num

/-- The receive reorder undoes the transmit reorder on 29-bit identifiers. -/
theorem rxIdReorder_txIdReorder (id : Nat) (h : id < 2 ^ 29) :
    rxIdReorder (txIdReorder id) = id := by
  have h29 : id < 536870912 := by omega
  rw [txIdReorder_eq]
  have h1 : id / 262144 % 2048 = id / 262144 := by omega
  rw [h1, rxIdReorder_eq]
  have h2 : (id / 262144 + id % 262144 * 2048) / 2048 = id % 262144 := by omega
  have h3 : (id / 262144 + id % 262144 * 2048) % 2048 = id / 262144 := by omega
  rw [h2, h3]
  omega

/-- The transmit reorder undoes the receive reorder on 29-bit raw
identifier words. -/
theorem txIdReorder_rxIdReorder (idf : Nat) (h : idf < 2 ^ 29) :
    txIdReorder (rxIdReorder idf) = idf := by
  have h29 : idf < 536870912 := by omega
  rw [rxIdReorder_eq]
  have h1 : idf / 2048 % 262144 = idf / 2048 := by omega
  rw [h1, txIdReorder_eq]
  have h2 : (idf / 2048 + idf % 2048 * 262144) / 262144 = idf % 2048 := by omega
  have h3 : (idf / 2048 + idf % 2048 * 262144) % 262144 = idf / 2048 := by omega
  rw [h2, h3]
  omega

/-- The transmit reorder of a 29-bit identifier is again 29-bit. -/
theorem txIdReorder_lt (id : Nat) (h : id < 2 ^ 29) :
    txIdReorder id < 2 ^ 29 := by
  rw [txIdReorder_eq]
  have h29 : id < 536870912 := by omega
  omega

/-- Decoding the control word of an encoded frame with `len ≤ 8` recovers
the DLC, RTR and IDE bits, leaves the filter-match index field zero, and
the word fits in 32 bits. -/
theorem txCtrl_fields (m : CANMessage) (hlen : m.len ≤ 8) :
    txCtrl m &&& 0x0F = m.len ∧
    ((txCtrl m &&& (1 <<< 5)) != 0) = m.rtr ∧
    ((txCtrl m &&& (1 <<< 4)) != 0) = m.ext ∧
    (txCtrl m >>> 11) &&& 0x1F = 0 ∧
    txCtrl m < 2 ^ 32 := by
  rcases m with ⟨id, ext, rtr, idx, len, d0, d1⟩
  simp only [txCtrl]
  interval_cases len <;> cases rtr <;> cases ext <;> exact (by decide)

/-- The encoded identifier word fits in 32 bits for CAN identifiers. -/
theorem txIdf_lt (m : CANMessage) (hext : m.ext = true → m.id < 2 ^ 29)
    (hstd : m.ext = false → m.id < 2 ^ 11) :
    txIdf m < 2 ^ 32 := by
  cases hx : m.ext
  · have := hstd hx
    simp only [txIdf, hx, Bool.false_eq_true, if_false]
    omega
  · have := txIdReorder_lt m.id (hext hx)
    simp only [txIdf, hx, if_true]
    omega

/-- C1: codec round-trip.  For every CAN frame with `len ∈ [0,8]` (29-bit
identifier when extended, 11-bit when standard, 32-bit payload words),
encoding it into the 16 message-object bytes as done by
`appendInControllerTxFIFO` and decoding them as done by
`receiveInterrupt` recovers the same id, ext, rtr, len, and payload
bytes, ignoring the filter-match index. -/
theorem codec_roundTrip (m : CANMessage) (hlen : m.len ≤ 8)
    (hext : m.ext = true → m.id < 2 ^ 29)
    (hstd : m.ext = false → m.id < 2 ^ 11)
    (h0 : m.data0 < 2 ^ 32) (h1 : m.data1 < 2 ^ 32) :
    RoundTripOK m := by
  obtain ⟨hL, hR, hE, hI, hB⟩ := txCtrl_fields m hlen
  have hidf := txIdf_lt m hext hstd
  have key : decodeMsgObj (encodeMsgObj m) =
      { id := if m.ext then rxIdReorder (txIdf m) else txIdf m,
        ext := m.ext, rtr := m.rtr, idx := (txCtrl m >>> 11) &&& 0x1F,
        len := m.len, data0 := m.data0, data1 := m.data1 } := by
    simp only [encodeMsgObj, bytesOfWord, List.cons_append, List.nil_append,
      decodeMsgObj]
    rw [accumWord_bytesOfWord _ hidf, accumWord_bytesOfWord _ hB,
      accumWord_bytesOfWord _ h0, accumWord_bytesOfWord _ h1]
    rw [hL, hR, hE]
  refine ⟨?_, ?_, ?_, ?_, ?_, ?_⟩ <;> rw [key]
  cases hx : m.ext
  · simp [txIdf, hx]
  · simp only [txIdf, hx, if_true]
    exact rxIdReorder_txIdReorder m.id (hext hx)

/-- C1 witness: the round-trip holds at the four extended 29-bit
identifiers singled out by the specification, with a full payload. -/
theorem codec_roundTrip_witness :
    RoundTripOK { id := 0x00000000, ext := true, rtr := false, idx := 0,
                  len := 8, data0 := 0x12345678, data1 := 0x9ABCDEF0 } ∧
    RoundTripOK { id := 0x1FFFFFFF, ext := true, rtr := true, idx := 0,
                  len := 8, data0 := 0xFFFFFFFF, data1 := 0 } ∧
    RoundTripOK { id := 0x000007FF, ext := true, rtr := false, idx := 0,
                  len := 3, data0 := 0xA5, data1 := 0x5A } ∧
    RoundTripOK { id := 0x00000800, ext := true, rtr := false, idx := 0,
                  len := 0, data0 := 0, data1 := 0 } :=
  ⟨codec_roundTrip _ (by decide) (fun _ => by decide) (fun h => by simp at h)
      (by decide) (by decide),
   codec_roundTrip _ (by decide) (fun _ => by decide) (fun h => by simp at h)
      (by decide) (by decide),
   codec_roundTrip _ (by decide) (fun _ => by decide) (fun h => by simp at h)
      (by decide) (by decide),
   codec_roundTrip _ (by decide) (fun _ => by decide) (fun h => by simp at h)
      (by decide) (by decide)⟩

/-- C3 counterexample: the reorder transform is not an involution.
Applying the transmit-side reorder twice to the 29-bit identifier 1
yields 0x400000, not 1; applying the receive-side reorder twice to 1
yields 0x80, not 1. -/
theorem idReorder_twice_ne :
    txIdReorder (txIdReorder 1) ≠ 1 ∧ rxIdReorder (rxIdReorder 1) ≠ 1 := by
  decide

/-- C3 (amended): the transmit-side and receive-side extended-identifier
reorder transforms are mutually inverse: for every 29-bit id, applying
the transmit reorder and then the receive reorder (or the receive
reorder and then the transmit reorder) yields id. -/
theorem idReorder_mutually_inverse (id : Nat) (h : id < 2 ^ 29) :
    rxIdReorder (txIdReorder id) = id ∧ txIdReorder (rxIdReorder id) = id :=
  ⟨rxIdReorder_txIdReorder id h, txIdReorder_rxIdReorder id h⟩

/-- C3 witness: the mutual-inverse property at the extreme 29-bit id. -/
theorem idReorder_mutually_inverse_witness :
    rxIdReorder (txIdReorder 0x1FFFFFFF) = 0x1FFFFFFF ∧
    txIdReorder (rxIdReorder 0x1FFFFFFF) = 0x1FFFFFFF :=
  idReorder_mutually_inverse 0x1FFFFFFF (by decide)

theorem lastCon2_append (c : Nat) (l1 l2 : List SpiOp) :
    lastCon2 c (l1 ++ l2) = lastCon2 (lastCon2 c l1) l2 := by
  simp [lastCon2, List.foldl_append]

theorem lastCon2_appendInControllerTxFIFO (c : Nat) (m : CANMessage) (ua : Nat) :
    lastCon2 c (appendInControllerTxFIFO m ua) = c := by
  simp [lastCon2, appendInControllerTxFIFO, updCon2, C1FIFOCON_REGISTER]

theorem lastCon2_receiveInterrupt (c : Nat) (s : DriverState)
    (rxSta rxUA : Nat) (bytes : List Nat) :
    lastCon2 c (receiveInterrupt s rxSta rxUA bytes).2 = c := by
  simp only [receiveInterrupt]
  split
  · simp [lastCon2, updCon2, C1FIFOCON_REGISTER, C1FIFOSTA_REGISTER,
      C1FIFOUA_REGISTER, receiveFIFOIndex]
  · simp [lastCon2, updCon2, C1FIFOCON_REGISTER, C1FIFOSTA_REGISTER,
      C1FIFOUA_REGISTER, receiveFIFOIndex]

theorem lastCon2_receive (c : Nat) (s : DriverState) :
    lastCon2 c (receive s).2.2 = c := by
  unfold receive
  split
  · simp [lastCon2]
  · simp [lastCon2, updCon2, C1FIFOCON_REGISTER, receiveFIFOIndex]

/-- Flag and `C1FIFOCON(2)` effect of `enterInTransmitBuffer`. -/
theorem enterInTransmitBuffer_con2 (s : DriverState) (m : CANMessage)
    (txUA status2 c : Nat) :
    ((enterInTransmitBuffer s m txUA status2).2.1.mControllerTxFIFOFull =
        (s.mControllerTxFIFOFull || decide (status2 &&& 1 = 0))) ∧
    lastCon2 c (enterInTransmitBuffer s m txUA status2).2.2 =
      (if s.mControllerTxFIFOFull = false ∧ status2 &&& 1 = 0 then 0x81 else c) := by
  have hand : status2 &&& 1 = status2 % 2 := Nat.and_one_is_mod status2
  by_cases hst : status2 % 2 = 0
  · rcases hf : s.mControllerTxFIFOFull with _ | _ <;>
      simp [enterInTransmitBuffer, hf, hand, hst, appendInControllerTxFIFO,
        lastCon2, updCon2, C1FIFOCON_REGISTER, C1FIFOSTA_REGISTER,
        C1FIFOUA_REGISTER]
  · rcases hf : s.mControllerTxFIFOFull with _ | _ <;>
      simp [enterInTransmitBuffer, hf, hand, hst, appendInControllerTxFIFO,
        lastCon2, updCon2, C1FIFOCON_REGISTER, C1FIFOSTA_REGISTER,
        C1FIFOUA_REGISTER]

/-- Flag and `C1FIFOCON(2)` effect of `transmitInterrupt`. -/
theorem transmitInterrupt_con2 (s : DriverState) (txUA c : Nat) :
    ((transmitInterrupt s txUA).1.mControllerTxFIFOFull =
        (if (bufRemove s.txBuf defaultCANMessage).2.2.length = 0 then false
         else s.mControllerTxFIFOFull)) ∧
    lastCon2 c (transmitInterrupt s txUA).2 =
      (if (bufRemove s.txBuf defaultCANMessage).2.2.length = 0 then 0x80 else c) := by
  by_cases he : (bufRemove s.txBuf defaultCANMessage).2.2.length = 0
  · simp [transmitInterrupt, he, appendInControllerTxFIFO, lastCon2, updCon2,
      C1FIFOCON_REGISTER, C1FIFOUA_REGISTER]
  · simp [transmitInterrupt, he, appendInControllerTxFIFO, lastCon2, updCon2,
      C1FIFOCON_REGISTER, C1FIFOUA_REGISTER]

/-- `sendViaTXQ` never writes `C1FIFOCON(2)`. -/
theorem lastCon2_sendViaTXQ (c : Nat) (s : DriverState) (m : CANMessage)
    (txqSta txqUA : Nat) :
    lastCon2 c (sendViaTXQ s m txqSta txqUA).2 = c := by
  unfold sendViaTXQ
  split_ifs with h1 h2
  · simp [lastCon2, updCon2, C1FIFOCON_REGISTER, C1TXQSTA_REGISTER,
      C1TXQUA_REGISTER, C1TXQCON_REGISTER]
  · simp [lastCon2, updCon2, C1FIFOCON_REGISTER, C1TXQSTA_REGISTER]
  · simp [lastCon2]

/-- Closed-form characterization of `isr_core`: the return value, the
resulting state, and the exact order of the SPI trace. -/
theorem isr_core_spec (s : DriverState) (intReg rxSta rxUA : Nat)
    (rxBytes : List Nat) (txUA : Nat) :
    isr_core s intReg rxSta rxUA rxBytes txUA =
      ((decide (intReg &&& (1 <<< 1) ≠ 0) || decide (intReg &&& (1 <<< 0) ≠ 0)),
       (if intReg &&& (1 <<< 0) ≠ 0 then
          (transmitInterrupt
            (if intReg &&& (1 <<< 1) ≠ 0 then
              (receiveInterrupt s rxSta rxUA rxBytes).1
             else s) txUA).1
        else
          (if intReg &&& (1 <<< 1) ≠ 0 then
            (receiveInterrupt s rxSta rxUA rxBytes).1
           else s)),
       [SpiOp.readWord C1INT_REGISTER intReg] ++
         (if intReg &&& (1 <<< 1) ≠ 0 then
            (receiveInterrupt s rxSta rxUA rxBytes).2
          else []) ++
         (if intReg &&& (1 <<< 0) ≠ 0 then
            (transmitInterrupt
              (if intReg &&& (1 <<< 1) ≠ 0 then
                (receiveInterrupt s rxSta rxUA rxBytes).1
               else s) txUA).2
          else []) ++
         (if intReg &&& (1 <<< 2) ≠ 0 then
            [SpiOp.writeByte C1INT_REGISTER (1 <<< 2)] else []) ++
         (if intReg &&& (1 <<< 3) ≠ 0 then
            [SpiOp.writeByte C1INT_REGISTER (1 <<< 3)] else []) ++
         (if intReg &&& (1 <<< 12) ≠ 0 then
            [SpiOp.writeByte (C1INT_REGISTER + 1) (1 <<< 4)] else [])) := by
  by_cases hA : intReg &&& 2 = 0 <;>
    by_cases hB : intReg % 2 = 1 <;>
      by_cases hC : intReg &&& 4 = 0 <;>
        by_cases hD : intReg &&& 8 = 0 <;>
          by_cases hE : intReg &&& 4096 = 0 <;>
            simp [isr_core, hA, hB, hC, hD, hE]

/-- C4: TX-full flag invariant.  In every driver state reachable after
bring-up, `mControllerTxFIFOFull` is true iff the most recent write to
`C1FIFOCON(2)` was `0x81` rather than `0x80`; moreover
`enterInTransmitBuffer` sets the flag exactly when it writes `0x81`
(upon observing a full TX-FIFO status) and `transmitInterrupt` clears it
exactly when it writes `0x80` (upon the host TX FIFO becoming empty). -/
theorem txFullFlag_invariant (s : DriverState) (c : Nat) (h : Reachable s c) :
    (s.mControllerTxFIFOFull = true ↔ c = 0x81) ∧
    (∀ (s1 : DriverState) (m : CANMessage) (ua st2 : Nat),
      (SpiOp.writeByte (C1FIFOCON_REGISTER 2) 0x81
          ∈ (enterInTransmitBuffer s1 m ua st2).2.2 ↔
        (s1.mControllerTxFIFOFull = false ∧ st2 &&& 1 = 0)) ∧
      ((enterInTransmitBuffer s1 m ua st2).2.1.mControllerTxFIFOFull = true ↔
        (s1.mControllerTxFIFOFull = true ∨ st2 &&& 1 = 0))) ∧
    (∀ (s1 : DriverState) (ua : Nat),
      (SpiOp.writeByte (C1FIFOCON_REGISTER 2) 0x80 ∈ (transmitInterrupt s1 ua).2 ↔
        (bufRemove s1.txBuf defaultCANMessage).2.2.length = 0) ∧
      ((transmitInterrupt s1 ua).1.mControllerTxFIFOFull = false ↔
        ((bufRemove s1.txBuf defaultCANMessage).2.2.length = 0 ∨
          s1.mControllerTxFIFOFull = false))) := by
  refine ⟨?_, ?_, ?_⟩
  · induction h with
    | init txSize rxSize utxq => simp
    | step s c e hr ih =>
        cases e with
        | sendEv m txUA status2 txqSta txqUA =>
            simp only [stepEvent, tryToSend]
            split_ifs with h0 h255
            · obtain ⟨hflag, hcon⟩ :=
                enterInTransmitBuffer_con2 s m txUA status2 c
              rw [hflag, hcon]
              by_cases hst : status2 &&& 1 = 0
              · rcases hfl : s.mControllerTxFIFOFull with _ | _
                · rw [if_pos ⟨rfl, hst⟩, decide_eq_true hst]
                  simp
                · have hc81 : c = 0x81 := ih.mp hfl
                  rw [if_neg (by simp), hc81]
                  simp
              · rcases hfl : s.mControllerTxFIFOFull with _ | _
                · rw [if_neg (fun hp => hst hp.2), decide_eq_false hst]
                  constructor
                  · intro hcontra
                    simp at hcontra
                  · intro hc
                    have hfl2 := ih.mpr hc
                    rw [hfl] at hfl2
                    simp at hfl2
                · have hc81 : c = 0x81 := ih.mp hfl
                  rw [if_neg (fun hp => hst hp.2), hc81]
                  simp
            · simp only []
              rw [lastCon2_sendViaTXQ]
              exact ih
            · simpa using ih
        | isrEv intReg rxSta rxUA rxBytes txUA =>
            simp only [stepEvent]
            rw [isr_core_spec]
            simp only []
            rw [lastCon2_append, lastCon2_append, lastCon2_append,
              lastCon2_append, lastCon2_append]
            have hc0 : lastCon2 c [SpiOp.readWord C1INT_REGISTER intReg] = c := by
              simp [lastCon2, updCon2]
            rw [hc0]
            have hrxseg :
                lastCon2 c
                  (if intReg &&& (1 <<< 1) ≠ 0 then
                    (receiveInterrupt s rxSta rxUA rxBytes).2 else []) = c := by
              split
              · exact lastCon2_receiveInterrupt c s rxSta rxUA rxBytes
              · rfl
            rw [hrxseg]
            have hackC : ∀ c' : Nat,
                lastCon2 c'
                  (if intReg &&& (1 <<< 2) ≠ 0 then
                    [SpiOp.writeByte C1INT_REGISTER (1 <<< 2)] else []) = c' := by
              intro c'
              split
              · simp [lastCon2, updCon2, C1INT_REGISTER, C1FIFOCON_REGISTER]
              · rfl
            have hackD : ∀ c' : Nat,
                lastCon2 c'
                  (if intReg &&& (1 <<< 3) ≠ 0 then
                    [SpiOp.writeByte C1INT_REGISTER (1 <<< 3)] else []) = c' := by
              intro c'
              split
              · simp [lastCon2, updCon2, C1INT_REGISTER, C1FIFOCON_REGISTER]
              · rfl
            have hackE : ∀ c' : Nat,
                lastCon2 c'
                  (if intReg &&& (1 <<< 12) ≠ 0 then
                    [SpiOp.writeByte (C1INT_REGISTER + 1) (1 <<< 4)] else []) = c' := by
              intro c'
              split
              · simp [lastCon2, updCon2, C1INT_REGISTER, C1FIFOCON_REGISTER]
              · rfl
            rw [hackC, hackD, hackE]
            have hrxflag :
                (receiveInterrupt s rxSta rxUA rxBytes).1.mControllerTxFIFOFull =
                  s.mControllerTxFIFOFull := by
              simp only [receiveInterrupt]
              split <;> rfl
            have hrxtx :
                (receiveInterrupt s rxSta rxUA rxBytes).1.txBuf = s.txBuf := by
              simp only [receiveInterrupt]
              split <;> rfl
            by_cases hA : intReg &&& 2 = 0 <;> by_cases hB : intReg % 2 = 1
            · simp [hA, hB]
              obtain ⟨hflag, hcon⟩ := transmitInterrupt_con2 s txUA c
              rw [hflag, hcon]
              split_ifs with hemp
              · simp
              · exact ih
            · simp [hA, hB, lastCon2]
              exact ih
            · simp [hA, hB]
              obtain ⟨hflag, hcon⟩ :=
                transmitInterrupt_con2
                  (receiveInterrupt s rxSta rxUA rxBytes).1 txUA c
              rw [hflag, hcon, hrxtx, hrxflag]
              split_ifs with hemp
              · simp
              · exact ih
            · simp [hA, hB, lastCon2]
              rw [hrxflag]
              exact ih
        | recvEv =>
            simp only [stepEvent]
            rw [lastCon2_receive]
            have hrflag : (receive s).2.1.mControllerTxFIFOFull =
                s.mControllerTxFIFOFull := by
              unfold receive
              split <;> rfl
            rw [hrflag]
            exact ih
  · intro s1 m ua st2
    have hand : st2 &&& 1 = st2 % 2 := Nat.and_one_is_mod st2
    constructor
    · by_cases hst : st2 % 2 = 0 <;>
        rcases hf : s1.mControllerTxFIFOFull with _ | _ <;>
          simp [enterInTransmitBuffer, hf, hand, hst, appendInControllerTxFIFO,
            C1FIFOCON_REGISTER, C1FIFOUA_REGISTER, C1FIFOSTA_REGISTER]
    · rw [(enterInTransmitBuffer_con2 s1 m ua st2 0).1]
      rcases s1.mControllerTxFIFOFull with _ | _ <;> simp
  · intro s1 ua
    constructor
    · by_cases he : (bufRemove s1.txBuf defaultCANMessage).2.2.length = 0 <;>
        simp [transmitInterrupt, he, appendInControllerTxFIFO,
          C1FIFOCON_REGISTER, C1FIFOUA_REGISTER]
    · rw [(transmitInterrupt_con2 s1 ua 0).1]
      split_ifs with he
      · simp [he]
      · simp [he]

/-- C4 witness: the invariant instantiated at the bring-up state, where
the flag is clear and the last `C1FIFOCON(2)` write was `0x80`. -/
theorem txFullFlag_invariant_witness :
    (({ mControllerTxFIFOFull := false, mUsesTXQ := false, txBuf := [],
        txBufSize := 8, rxBuf := [], rxBufSize := 8 } :
          DriverState).mControllerTxFIFOFull = true ↔ (0x80 : Nat) = 0x81) :=
  (txFullFlag_invariant _ _ (Reachable.init 8 8 false)).1

/-- C5: RX throttle.  When the RX-interrupt handler's append makes the
host RX FIFO full, it ends its register traffic by writing `0x00` to
`C1FIFOCON(1)`; every receive call that dequeues a frame writes exactly
`0x01` to `C1FIFOCON(1)`; a receive call whose dequeue fails performs no
register write at all. -/
theorem rxThrottle (s : DriverState) (rxSta rxUA : Nat) (bytes : List Nat) :
    (s.rxBuf.length + 1 = s.rxBufSize →
      (receiveInterrupt s rxSta rxUA bytes).2 =
        [SpiOp.readByte (C1FIFOSTA_REGISTER receiveFIFOIndex) rxSta,
         SpiOp.readWord (C1FIFOUA_REGISTER receiveFIFOIndex) rxUA,
         SpiOp.readBurst ((0x400 + rxUA) &&& 0xFFFF) bytes,
         SpiOp.writeByte (C1FIFOCON_REGISTER receiveFIFOIndex + 1) (1 <<< 0),
         SpiOp.writeByte (C1FIFOCON_REGISTER receiveFIFOIndex) 0x00]) ∧
    (s.rxBuf ≠ [] →
      (receive s).1.1 = true ∧
      (receive s).2.2 =
        [SpiOp.writeByte (C1FIFOCON_REGISTER receiveFIFOIndex) 0x01]) ∧
    (s.rxBuf = [] → (receive s).1.1 = false ∧ (receive s).2.2 = []) := by
  refine ⟨?_, ?_, ?_⟩
  · intro hfull
    have hlt : s.rxBuf.length < s.rxBufSize := by omega
    simp [receiveInterrupt, bufAppend, hlt, hfull]
  · intro hne
    rcases hbuf : s.rxBuf with _ | ⟨m, rest⟩
    · exact absurd hbuf hne
    · simp [receive, hbuf]
  · intro hemp
    simp [receive, hemp]

/-- C5 witness: the throttle behavior at a state one frame short of
full, at a state with a pending frame, and at an empty state. -/
theorem rxThrottle_witness :
    (receiveInterrupt
        { mControllerTxFIFOFull := false, mUsesTXQ := false, txBuf := [],
          txBufSize := 4, rxBuf := [defaultCANMessage], rxBufSize := 2 }
        0 0 (List.replicate 16 0)).2 =
      [SpiOp.readByte (C1FIFOSTA_REGISTER receiveFIFOIndex) 0,
       SpiOp.readWord (C1FIFOUA_REGISTER receiveFIFOIndex) 0,
       SpiOp.readBurst ((0x400 + 0) &&& 0xFFFF) (List.replicate 16 0),
       SpiOp.writeByte (C1FIFOCON_REGISTER receiveFIFOIndex + 1) (1 <<< 0),
       SpiOp.writeByte (C1FIFOCON_REGISTER receiveFIFOIndex) 0x00] ∧
    ((receive
        { mControllerTxFIFOFull := false, mUsesTXQ := false, txBuf := [],
          txBufSize := 4, rxBuf := [defaultCANMessage], rxBufSize := 2 }).1.1 = true ∧
      (receive
        { mControllerTxFIFOFull := false, mUsesTXQ := false, txBuf := [],
          txBufSize := 4, rxBuf := [defaultCANMessage], rxBufSize := 2 }).2.2 =
        [SpiOp.writeByte (C1FIFOCON_REGISTER receiveFIFOIndex) 0x01]) ∧
    ((receive
        { mControllerTxFIFOFull := false, mUsesTXQ := false, txBuf := [],
          txBufSize := 4, rxBuf := [], rxBufSize := 2 }).1.1 = false ∧
      (receive
        { mControllerTxFIFOFull := false, mUsesTXQ := false, txBuf := [],
          txBufSize := 4, rxBuf := [], rxBufSize := 2 }).2.2 = []) :=
  ⟨(rxThrottle _ 0 0 (List.replicate 16 0)).1 (by decide),
   (rxThrottle _ 0 0 (List.replicate 16 0)).2.1 (by decide),
   (rxThrottle _ 0 0 (List.replicate 16 0)).2.2 (by decide)⟩

/-- C6: `tryToSend` routing.  Routing index 0 enters the normal TX FIFO
path; index 255 goes through the TXQ, failing without effect when the
TXQ is unused or the controller reports it full, and otherwise encoding
the frame at `0x400 + head` and committing UINC and TXREQ to
`C1TXQCON+1`; any other index performs no controller access and returns
false. -/
theorem tryToSend_routing (s : DriverState) (m : CANMessage)
    (txUA status2 txqSta txqUA : Nat) (hua : txqUA < 0xC00) :
    (m.idx = 0 →
      tryToSend s m txUA status2 txqSta txqUA =
        enterInTransmitBuffer s m txUA status2) ∧
    (m.idx = 255 →
      ((s.mUsesTXQ = false ∨ txqSta &&& 1 = 0) →
        (tryToSend s m txUA status2 txqSta txqUA).1 = false ∧
        (tryToSend s m txUA status2 txqSta txqUA).2.1 = s) ∧
      (s.mUsesTXQ = true → txqSta &&& 1 ≠ 0 →
        (tryToSend s m txUA status2 txqSta txqUA).1 = true ∧
        (tryToSend s m txUA status2 txqSta txqUA).2.2 =
          [SpiOp.readByte C1TXQSTA_REGISTER txqSta,
           SpiOp.readWord C1TXQUA_REGISTER txqUA,
           SpiOp.writeBurst (0x400 + txqUA) (encodeMsgObj m),
           SpiOp.writeByte (C1TXQCON_REGISTER + 1) ((1 <<< 0) ||| (1 <<< 1))])) ∧
    (m.idx ≠ 0 → m.idx ≠ 255 →
      (tryToSend s m txUA status2 txqSta txqUA).1 = false ∧
      (tryToSend s m txUA status2 txqSta txqUA).2 = (s, [])) := by
  have handq : txqSta &&& 1 = txqSta % 2 := Nat.and_one_is_mod txqSta
  have hmask : (0x400 + txqUA) &&& 0xFFFF = 0x400 + txqUA := by
    have h16 : (0xFFFF : Nat) = 2 ^ 16 - 1 := by norm_num
    rw [h16, Nat.and_pow_two_sub_one_eq_mod]
    omega
  refine ⟨?_, ?_, ?_⟩
  · intro h0
    simp [tryToSend, h0]
  · intro h255
    constructor
    · intro hoff
      rcases hoff with hu | hsta
      · simp [tryToSend, h255, sendViaTXQ, hu]
      · rw [handq] at hsta
        rcases hu : s.mUsesTXQ with _ | _ <;>
          simp [tryToSend, h255, sendViaTXQ, hu, hsta]
    · intro hu hsta
      rw [handq] at hsta
      have hsta1 : txqSta % 2 = 1 := by omega
      simp [tryToSend, h255, sendViaTXQ, hu, hsta1, hmask]
  · intro h0 h255
    simp [tryToSend, h0, h255]

/-- C6 witness: the three routing behaviors at concrete frames with
indices 0, 255 and 7, against a TXQ that reports space. -/
theorem tryToSend_routing_witness :
    tryToSend
        { mControllerTxFIFOFull := false, mUsesTXQ := true, txBuf := [],
          txBufSize := 4, rxBuf := [], rxBufSize := 4 }
        { id := 0x100, ext := false, rtr := false, idx := 0, len := 1,
          data0 := 0xAB, data1 := 0 } 0 1 1 0 =
      enterInTransmitBuffer
        { mControllerTxFIFOFull := false, mUsesTXQ := true, txBuf := [],
          txBufSize := 4, rxBuf := [], rxBufSize := 4 }
        { id := 0x100, ext := false, rtr := false, idx := 0, len := 1,
          data0 := 0xAB, data1 := 0 } 0 1 ∧
    ((tryToSend
        { mControllerTxFIFOFull := false, mUsesTXQ := true, txBuf := [],
          txBufSize := 4, rxBuf := [], rxBufSize := 4 }
        { id := 0x100, ext := false, rtr := false, idx := 255, len := 1,
          data0 := 0xAB, data1 := 0 } 0 1 1 0).1 = true ∧
      (tryToSend
        { mControllerTxFIFOFull := false, mUsesTXQ := true, txBuf := [],
          txBufSize := 4, rxBuf := [], rxBufSize := 4 }
        { id := 0x100, ext := false, rtr := false, idx := 255, len := 1,
          data0 := 0xAB, data1 := 0 } 0 1 1 0).2.2 =
        [SpiOp.readByte C1TXQSTA_REGISTER 1,
         SpiOp.readWord C1TXQUA_REGISTER 0,
         SpiOp.writeBurst (0x400 + 0)
           (encodeMsgObj { id := 0x100, ext := false, rtr := false,
                           idx := 255, len := 1, data0 := 0xAB, data1 := 0 }),
         SpiOp.writeByte (C1TXQCON_REGISTER + 1) ((1 <<< 0) ||| (1 <<< 1))]) ∧
    ((tryToSend
        { mControllerTxFIFOFull := false, mUsesTXQ := true, txBuf := [],
          txBufSize := 4, rxBuf := [], rxBufSize := 4 }
        { id := 0x100, ext := false, rtr := false, idx := 7, len := 1,
          data0 := 0xAB, data1 := 0 } 0 1 1 0).1 = false ∧
      (tryToSend
        { mControllerTxFIFOFull := false, mUsesTXQ := true, txBuf := [],
          txBufSize := 4, rxBuf := [], rxBufSize := 4 }
        { id := 0x100, ext := false, rtr := false, idx := 7, len := 1,
          data0 := 0xAB, data1 := 0 } 0 1 1 0).2 =
        ({ mControllerTxFIFOFull := false, mUsesTXQ := true, txBuf := [],
           txBufSize := 4, rxBuf := [], rxBufSize := 4 }, [])) :=
  ⟨(tryToSend_routing _ _ 0 1 1 0 (by decide)).1 rfl,
   (tryToSend_routing _ _ 0 1 1 0 (by decide)).2.1 rfl |>.2 rfl (by decide),
   (tryToSend_routing _ _ 0 1 1 0 (by decide)).2.2 (by decide) (by decide)⟩

/-- C7: `isr_core` dispatch.  One `C1INT` read first; then, in order,
the RX handler when bit 1 is set, the TX handler when bit 0 is set, the
TBCIF, MODIF and SERRIF acknowledgements for bits 2, 3 and 12; the call
reports true iff bit 1 or bit 0 of the value read was set. -/
theorem isr_core_dispatch (s : DriverState) (intReg rxSta rxUA : Nat)
    (rxBytes : List Nat) (txUA : Nat) :
    ((isr_core s intReg rxSta rxUA rxBytes txUA).1 = true ↔
      (intReg &&& (1 <<< 1) ≠ 0 ∨ intReg &&& (1 <<< 0) ≠ 0)) ∧
    (isr_core s intReg rxSta rxUA rxBytes txUA).2.2 =
      [SpiOp.readWord C1INT_REGISTER intReg] ++
        (if intReg &&& (1 <<< 1) ≠ 0 then
          (receiveInterrupt s rxSta rxUA rxBytes).2 else []) ++
        (if intReg &&& (1 <<< 0) ≠ 0 then
          (transmitInterrupt
            (if intReg &&& (1 <<< 1) ≠ 0 then
              (receiveInterrupt s rxSta rxUA rxBytes).1 else s) txUA).2
         else []) ++
        (if intReg &&& (1 <<< 2) ≠ 0 then
          [SpiOp.writeByte C1INT_REGISTER (1 <<< 2)] else []) ++
        (if intReg &&& (1 <<< 3) ≠ 0 then
          [SpiOp.writeByte C1INT_REGISTER (1 <<< 3)] else []) ++
        (if intReg &&& (1 <<< 12) ≠ 0 then
          [SpiOp.writeByte (C1INT_REGISTER + 1) (1 <<< 4)] else []) := by
  rw [isr_core_spec]
  constructor
  · simp
  · rfl

/-- C8: the TX-interrupt handler ignores the result of the host-FIFO
remove: on every invocation it performs exactly one message-object burst
write and exactly one UINC-TXREQ commit to `C1FIFOCON(2)+1`; when the
host TX FIFO was empty, the frame committed is the default-constructed
message. -/
theorem transmitInterrupt_always_commits (s : DriverState) (txUA : Nat) :
    ((transmitInterrupt s txUA).2.countP
        (fun op => match op with
          | SpiOp.writeBurst _ _ => true
          | _ => false) = 1) ∧
    ((transmitInterrupt s txUA).2.countP
        (fun op => decide (op = SpiOp.writeByte (C1FIFOCON_REGISTER 2 + 1)
          ((1 <<< 0) ||| (1 <<< 1)))) = 1) ∧
    (s.txBuf = [] →
      SpiOp.writeBurst ((0x400 + txUA) &&& 0xFFFF)
          (encodeMsgObj defaultCANMessage) ∈ (transmitInterrupt s txUA).2) := by
  refine ⟨?_, ?_, ?_⟩
  · rcases hbuf : s.txBuf with _ | ⟨m0, rest⟩
    · simp [transmitInterrupt, bufRemove, hbuf, appendInControllerTxFIFO,
        List.countP_cons, List.countP_nil]
    · rcases rest with _ | ⟨m1, rest2⟩ <;>
        simp [transmitInterrupt, bufRemove, hbuf, appendInControllerTxFIFO,
          List.countP_cons, List.countP_nil]
  · rcases hbuf : s.txBuf with _ | ⟨m0, rest⟩
    · simp [transmitInterrupt, bufRemove, hbuf, appendInControllerTxFIFO,
        List.countP_cons, List.countP_nil, C1FIFOCON_REGISTER,
        C1FIFOUA_REGISTER]
    · rcases rest with _ | ⟨m1, rest2⟩ <;>
        simp [transmitInterrupt, bufRemove, hbuf, appendInControllerTxFIFO,
          List.countP_cons, List.countP_nil, C1FIFOCON_REGISTER,
          C1FIFOUA_REGISTER]
  · intro hbuf
    simp [transmitInterrupt, bufRemove, hbuf, appendInControllerTxFIFO]

/-- C8 witness: with an empty host TX FIFO, the handler still emits one
burst and one commit, and the burst carries the default frame. -/
theorem transmitInterrupt_always_commits_witness :
    ((transmitInterrupt
        { mControllerTxFIFOFull := true, mUsesTXQ := false, txBuf := [],
          txBufSize := 4, rxBuf := [], rxBufSize := 4 } 0).2.countP
        (fun op => match op with
          | SpiOp.writeBurst _ _ => true
          | _ => false) = 1) ∧
    ((transmitInterrupt
        { mControllerTxFIFOFull := true, mUsesTXQ := false, txBuf := [],
          txBufSize := 4, rxBuf := [], rxBufSize := 4 } 0).2.countP
        (fun op => decide (op = SpiOp.writeByte (C1FIFOCON_REGISTER 2 + 1)
          ((1 <<< 0) ||| (1 <<< 1)))) = 1) ∧
    SpiOp.writeBurst ((0x400 + 0) &&& 0xFFFF)
        (encodeMsgObj defaultCANMessage) ∈
      (transmitInterrupt
        { mControllerTxFIFOFull := true, mUsesTXQ := false, txBuf := [],
          txBufSize := 4, rxBuf := [], rxBufSize := 4 } 0).2 :=
  ⟨(transmitInterrupt_always_commits _ 0).1,
   (transmitInterrupt_always_commits _ 0).2.1,
   (transmitInterrupt_always_commits _ 0).2.2 rfl⟩

/-- C9: the RX-interrupt handler ignores the result of the host-FIFO
append: when the host RX FIFO is already full, the decoded frame is
discarded (the FIFO is unchanged) while UINC is still written to
`C1FIFOCON(1)+1`, advancing the controller FIFO past the lost frame. -/
theorem receiveInterrupt_drops_when_full (s : DriverState)
    (rxSta rxUA : Nat) (bytes : List Nat)
    (hfull : s.rxBuf.length = s.rxBufSize) :
    (receiveInterrupt s rxSta rxUA bytes).1.rxBuf = s.rxBuf ∧
    SpiOp.writeByte (C1FIFOCON_REGISTER receiveFIFOIndex + 1) (1 <<< 0) ∈
      (receiveInterrupt s rxSta rxUA bytes).2 := by
  have hnl : ¬ s.rxBuf.length < s.rxBufSize := by omega
  constructor
  · simp [receiveInterrupt, bufAppend, hnl, hfull]
  · simp [receiveInterrupt, bufAppend, hnl, hfull]

/-- C9 witness: a full one-slot host RX FIFO drops the decoded frame
but still advances the controller FIFO. -/
theorem receiveInterrupt_drops_when_full_witness :
    (receiveInterrupt
        { mControllerTxFIFOFull := false, mUsesTXQ := false, txBuf := [],
          txBufSize := 4, rxBuf := [defaultCANMessage], rxBufSize := 1 }
        0 0 (List.replicate 16 0xFF)).1.rxBuf = [defaultCANMessage] ∧
    SpiOp.writeByte (C1FIFOCON_REGISTER receiveFIFOIndex + 1) (1 <<< 0) ∈
      (receiveInterrupt
        { mControllerTxFIFOFull := false, mUsesTXQ := false, txBuf := [],
          txBufSize := 4, rxBuf := [defaultCANMessage], rxBufSize := 1 }
        0 0 (List.replicate 16 0xFF)).2 :=
  receiveInterrupt_drops_when_full _ 0 0 (List.replicate 16 0xFF) (by decide)

/-- C2 (code-bug evidence): when the bitrate is too far from the desired
rate and simultaneously the wired INT pin is not interrupt-capable, the
validation of `begin` returns exactly `kINTPinIsNotAnInterrupt`: the
INT-pin check assigns the error code instead of or-ing it
(ACAN2517.cpp line 172), so the already-accumulated
`kTooFarFromDesiredBitRate` bit is lost, contradicting the claim that
every holding condition keeps its bit. -/
theorem beginValidation_drops_bitrate_bit :
    beginValidationErrorCode
        { mBitRateClosedToDesiredRate := false, bitSettingConsistency := 0,
          mINT := 2, intPinIsNotAnInterrupt := true, isrIsNull := false,
          mControllerTXQSize := 0, mControllerTXQBufferPriority := 0,
          mControllerReceiveFIFOSize := 8, mControllerTransmitFIFOSize := 8,
          mControllerTransmitFIFOPriority := 0, ramUsage := 100,
          filterCount := 1, filterStatusOk := true } =
      kINTPinIsNotAnInterrupt ∧
    beginValidationErrorCode
        { mBitRateClosedToDesiredRate := false, bitSettingConsistency := 0,
          mINT := 2, intPinIsNotAnInterrupt := true, isrIsNull := false,
          mControllerTXQSize := 0, mControllerTXQBufferPriority := 0,
          mControllerReceiveFIFOSize := 8, mControllerTransmitFIFOSize := 8,
          mControllerTransmitFIFOPriority := 0, ramUsage := 100,
          filterCount := 1, filterStatusOk := true } &&&
      kTooFarFromDesiredBitRate = 0 := by
  decide

/-- C10: `dispatchReceivedMessage` subscripts the callback array with
the received frame's filter-match index without comparing it to the
installed filter count: the decoder can produce every index 0..31, the
dispatch uses it unchanged, and whenever it is at least the array's
length the access is out of bounds. -/
theorem dispatch_filterIndex_unchecked (s : DriverState) (m : CANMessage)
    (rest : List CANMessage) (arr : List (Option Nat))
    (hbuf : s.rxBuf = m :: rest) (hoob : arr.length ≤ m.idx) :
    (dispatchReceivedMessage s (some arr)).1.2.1 = some m.idx ∧
    (dispatchReceivedMessage s (some arr)).1.2.2 = none ∧
    (∀ bs : List Nat, (decodeMsgObj bs).idx ≤ 31) ∧
    (∀ v : Nat, v ≤ 31 → (decodeMsgObj (idxBytes v)).idx = v) := by
  refine ⟨?_, ?_, ?_, ?_⟩
  · simp [dispatchReceivedMessage, receive, hbuf]
  · have hg := List.get?_eq_none.mpr hoob
    simp [dispatchReceivedMessage, receive, hbuf, hg]
    exact hoob
  · intro bs
    unfold decodeMsgObj
    split
    · simp only
      have h1F : (0x1F : Nat) = 2 ^ 5 - 1 := by norm_num
      rw [h1F, Nat.and_pow_two_sub_one_eq_mod]
      omega
    · decide
  · intro v hv
    interval_cases v <;> decide

/-- C10 witness: a received frame carrying filter index 5 dispatched
against an empty callback array is accessed out of bounds. -/
theorem dispatch_filterIndex_unchecked_witness :
    (dispatchReceivedMessage
        { mControllerTxFIFOFull := false, mUsesTXQ := false, txBuf := [],
          txBufSize := 4,
          rxBuf := [{ id := 0, ext := false, rtr := false, idx := 5,
                      len := 0, data0 := 0, data1 := 0 }],
          rxBufSize := 4 } (some [])).1.2.1 = some 5 ∧
    (dispatchReceivedMessage
        { mControllerTxFIFOFull := false, mUsesTXQ := false, txBuf := [],
          txBufSize := 4,
          rxBuf := [{ id := 0, ext := false, rtr := false, idx := 5,
                      len := 0, data0 := 0, data1 := 0 }],
          rxBufSize := 4 } (some [])).1.2.2 = none :=
  ⟨(dispatch_filterIndex_unchecked _ _ [] [] rfl (by decide)).1,
   (dispatch_filterIndex_unchecked _ _ [] [] rfl (by decide)).2.1⟩

end Acan2517
